import Mathlib

/-!
Verification development for the parallel QR-code generation and tiered
storage system (`qr_generator_gov.py`, `storage_strategy.py`,
`exemples_code_implementation.py`).

The Python sources are shallowly embedded: pure functions become Lean
functions, the sqlite tables become association lists, Python `int`
becomes `Int` (or `Nat` where the value is a count), machine-independent
Python arithmetic is exact, and `datetime` values are records carrying the
facets the code reads (`epoch seconds`, `strftime` renderings, `.hour`).
The cryptographic primitives used by the code (`hashlib.sha256`,
`hashlib.md5`) are implemented bit-faithfully over byte lists so that
theorems can evaluate them on concrete inputs.
-/

/-! ## Generic helpers -/

/-- `assocLookup l k` — first value bound to key `k`, like a sqlite point
`SELECT` on a primary-key column. -/
def assocLookup {β : Type} (l : List (String × β)) (k : String) : Option β :=
  match l with
  | [] => none
  | p :: rest => if p.1 = k then some p.2 else assocLookup rest k

/-- `INSERT OR REPLACE`: replace the binding in place if the key exists,
otherwise append a fresh row. -/
def assocInsertOrReplace {β : Type} (l : List (String × β)) (k : String) (v : β) :
    List (String × β) :=
  match l with
  | [] => [(k, v)]
  | p :: rest =>
    if p.1 = k then (k, v) :: rest else p :: assocInsertOrReplace rest k v

/-- `UPDATE ... WHERE key = k`: apply `f` to every row with key `k`
(primary keys are unique, so at most one row changes). -/
def assocUpdate {β : Type} (l : List (String × β)) (k : String) (f : β → β) :
    List (String × β) :=
  match l with
  | [] => []
  | p :: rest =>
    (if p.1 = k then (p.1, f p.2) else p) :: assocUpdate rest k f

/-- Python slicing loop `[xs[i:i+B] for i in range(0, len(xs), B)]`
(for `B > 0` the range has `ceil |xs| / B` elements `0, B, 2B, ...`). -/
def pyChunks {α : Type} (B : Nat) (l : List α) : List (List α) :=
  (List.range ((l.length + B - 1) / B)).map (fun i => (l.drop (i * B)).take B)

/-- Little-endian decimal digits with explicit fuel (structural, so it
evaluates inside the kernel; `natDigitsLE n n` agrees with
`Nat.digits 10 n`, see `natDigitsLE_eq_digits`). -/
def natDigitsLE : Nat → Nat → List Nat
  | 0, _ => []
  | fuel + 1, n => if n = 0 then [] else n % 10 :: natDigitsLE fuel (n / 10)

/-- Decimal digit characters of a natural number, most significant first
(`str(n)` in Python). -/
def natDecimalChars (n : Nat) : List Char :=
  if n = 0 then ['0']
  else (natDigitsLE n n).reverse.map (fun d => Char.ofNat (48 + d))

/-- Python `f"{n:08d}"` on a non-negative integer: left-pad the decimal
rendering with zeros to width 8 (wider numbers are printed in full). -/
def pyFmt08 (n : Nat) : String :=
  ⟨List.replicate (8 - (natDecimalChars n).length) '0' ++ natDecimalChars n⟩

/-- Python `f"{i:02d}"` on an `int` (the sign, when present, counts
towards the width). -/
def pyFmt02Int (i : Int) : String :=
  if i < 0 then
    ⟨'-' :: (List.replicate (1 - (natDecimalChars i.natAbs).length) '0' ++
      natDecimalChars i.natAbs)⟩
  else
    ⟨List.replicate (2 - (natDecimalChars i.toNat).length) '0' ++
      natDecimalChars i.toNat⟩

/-- Numeric value of a most-significant-first list of decimal digit
characters (the parse that inverts `pyFmt08`). -/
def decimalCharsVal (cs : List Char) : Nat :=
  cs.foldl (fun a c => 10 * a + (c.toNat - 48)) 0

/-- Lower-case hex digit. -/
def hexDigitChar (n : Nat) : Char :=
  if n < 10 then Char.ofNat (48 + n) else Char.ofNat (87 + n)

/-- UTF-8 encoding of one character (Python `str.encode('utf-8')`,
codepoint by codepoint). -/
def utf8EncodeCharNat (c : Char) : List Nat :=
  let n := c.toNat
  if n < 128 then [n]
  else if n < 2048 then [192 + n / 64, 128 + n % 64]
  else if n < 65536 then [224 + n / 4096, 128 + n / 64 % 64, 128 + n % 64]
  else [240 + n / 262144, 128 + n / 4096 % 64, 128 + n / 64 % 64, 128 + n % 64]

/-- UTF-8 bytes of a string (Python `s.encode()`). -/
def utf8Bytes (s : String) : List Nat :=
  s.data.flatMap utf8EncodeCharNat

/-! ## JSON rendering (the subset produced by `json.dumps` on the payload
dictionaries: string and int values only, `ensure_ascii=True`). -/

/-- `\uXXXX` escape of a codepoint below `0x10000`. -/
def jsonUEscape (n : Nat) : List Char :=
  ['\\', 'u', hexDigitChar (n / 4096 % 16), hexDigitChar (n / 256 % 16),
   hexDigitChar (n / 16 % 16), hexDigitChar (n % 16)]

/-- CPython `json.dumps` escaping of one character with the default
`ensure_ascii=True`: short escapes for the two-character sequences, and
`\uXXXX` (surrogate pairs above the BMP) for anything outside
`0x20 ..= 0x7e`. -/
def jsonEscapeChar (c : Char) : List Char :=
  if c = '\\' then ['\\', '\\']
  else if c = '"' then ['\\', '"']
  else if c = Char.ofNat 10 then ['\\', 'n']
  else if c = Char.ofNat 13 then ['\\', 'r']
  else if c = Char.ofNat 9 then ['\\', 't']
  else if c = Char.ofNat 8 then ['\\', 'b']
  else if c = Char.ofNat 12 then ['\\', 'f']
  else if c.toNat < 32 ∨ 126 < c.toNat then
    (if c.toNat < 65536 then jsonUEscape c.toNat
     else jsonUEscape (55296 + (c.toNat - 65536) / 1024) ++
          jsonUEscape (56320 + (c.toNat - 65536) % 1024))
  else [c]

/-- JSON string literal `"..."` with escaping. -/
def jsonStr (s : String) : String :=
  "\"" ++ ⟨s.data.flatMap jsonEscapeChar⟩ ++ "\""

/-- JSON object over pre-rendered values with the default
`json.dumps` separators `(', ', ': ')`. -/
def jsonObjSpaced (fields : List (String × String)) : String :=
  "\x7b" ++ String.intercalate ", "
    (fields.map (fun p => jsonStr p.1 ++ ": " ++ p.2)) ++ "\x7d"

/-- JSON object with the compact separators `(',', ':')`. -/
def jsonObjCompact (fields : List (String × String)) : String :=
  "\x7b" ++ String.intercalate ","
    (fields.map (fun p => jsonStr p.1 ++ ":" ++ p.2)) ++ "\x7d"

/-! ## SHA-256 (`hashlib.sha256`), bit-faithful over byte lists -/

/-- Truncate to 32 bits. -/
def w32 (n : Nat) : Nat := n % 4294967296

/-- 32-bit right rotation (argument below `2 ^ 32`). -/
def rotr32 (n x : Nat) : Nat := w32 ((x >>> n) ||| (x <<< (32 - n)))

/-- 32-bit complement. -/
def not32 (x : Nat) : Nat := 4294967295 ^^^ x

def sha256K : List Nat :=
  [1116352408, 1899447441, 3049323471, 3921009573, 961987163, 1508970993, 2453635748, 2870763221,
   3624381080, 310598401, 607225278, 1426881987, 1925078388, 2162078206, 2614888103, 3248222580,
   3835390401, 4022224774, 264347078, 604807628, 770255983, 1249150122, 1555081692, 1996064986,
   2554220882, 2821834349, 2952996808, 3210313671, 3336571891, 3584528711, 113926993, 338241895,
   666307205, 773529912, 1294757372, 1396182291, 1695183700, 1986661051, 2177026350, 2456956037,
   2730485921, 2820302411, 3259730800, 3345764771, 3516065817, 3600352804, 4094571909, 275423344,
   430227734, 506948616, 659060556, 883997877, 958139571, 1322822218, 1537002063, 1747873779,
   1955562222, 2024104815, 2227730452, 2361852424, 2428436474, 2756734187, 3204031479, 3329325298]

structure Sha256State where
  a : Nat
  b : Nat
  c : Nat
  d : Nat
  e : Nat
  f : Nat
  g : Nat
  hh : Nat
deriving DecidableEq

def sha256Init : Sha256State :=
  ⟨1779033703, 3144134277, 1013904242, 2773480762, 1359893119, 2600822924, 528734635, 1541459225⟩

def shaCh (x y z : Nat) : Nat := (x &&& y) ^^^ (not32 x &&& z)

def shaMaj (x y z : Nat) : Nat := (x &&& y) ^^^ (x &&& z) ^^^ (y &&& z)

def shaBigSigma0 (x : Nat) : Nat := rotr32 2 x ^^^ rotr32 13 x ^^^ rotr32 22 x

def shaBigSigma1 (x : Nat) : Nat := rotr32 6 x ^^^ rotr32 11 x ^^^ rotr32 25 x

def shaSmallSigma0 (x : Nat) : Nat := rotr32 7 x ^^^ rotr32 18 x ^^^ (x >>> 3)

def shaSmallSigma1 (x : Nat) : Nat := rotr32 17 x ^^^ rotr32 19 x ^^^ (x >>> 10)

/-- Big-endian bytes (most significant first) of `n`, `k` bytes wide. -/
def beBytes (k : Nat) (n : Nat) : List Nat :=
  (List.range k).map (fun i => n >>> (8 * (k - 1 - i)) % 256)

/-- SHA-256 padding: `0x80`, zeros up to 56 mod 64, then the bit length
as 8 big-endian bytes. -/
def sha256Pad (msg : List Nat) : List Nat :=
  let z := (120 - (msg.length + 1) % 64) % 64
  msg ++ [128] ++ List.replicate z 0 ++ beBytes 8 (8 * msg.length)

/-- Big-endian 32-bit words from groups of four bytes. -/
def bytesToWordsBE : List Nat → List Nat
  | b0 :: b1 :: b2 :: b3 :: rest =>
      (b0 * 16777216 + b1 * 65536 + b2 * 256 + b3) :: bytesToWordsBE rest
  | _ => []

/-- Extend the 16-word block to the 64-word message schedule. -/
def sha256Extend : Nat → List Nat → List Nat
  | 0, w => w
  | Nat.succ k, w =>
      let n := w.length
      let x := w32 (shaSmallSigma1 (w.getD (n - 2) 0) + w.getD (n - 7) 0 +
                    shaSmallSigma0 (w.getD (n - 15) 0) + w.getD (n - 16) 0)
      sha256Extend k (w ++ [x])

def sha256Round (st : Sha256State) (kw : Nat) (w : Nat) : Sha256State :=
  let t1 := w32 (st.hh + shaBigSigma1 st.e + shaCh st.e st.f st.g + kw + w)
  let t2 := w32 (shaBigSigma0 st.a + shaMaj st.a st.b st.c)
  ⟨w32 (t1 + t2), st.a, st.b, st.c, w32 (st.d + t1), st.e, st.f, st.g⟩

def sha256Block (hs : Sha256State) (block : List Nat) : Sha256State :=
  let w := sha256Extend 48 (bytesToWordsBE block)
  let st := (sha256K.zip w).foldl (fun s p => sha256Round s p.1 p.2) hs
  ⟨w32 (hs.a + st.a), w32 (hs.b + st.b), w32 (hs.c + st.c), w32 (hs.d + st.d),
   w32 (hs.e + st.e), w32 (hs.f + st.f), w32 (hs.g + st.g), w32 (hs.hh + st.hh)⟩

/-- Hex rendering of a 32-bit word, 8 lower-case hex digits. -/
def word32HexChars (w : Nat) : List Char :=
  (List.range 8).map (fun i => hexDigitChar (w >>> (4 * (7 - i)) % 16))

/-- `hashlib.sha256(bytes).hexdigest()` as a character list. -/
def sha256HexChars (msg : List Nat) : List Char :=
  let hs := (pyChunks 64 (sha256Pad msg)).foldl sha256Block sha256Init
  [hs.a, hs.b, hs.c, hs.d, hs.e, hs.f, hs.g, hs.hh].flatMap word32HexChars

/-- `hashlib.sha256(bytes).hexdigest()`. -/
def sha256Hex (msg : List Nat) : String :=
  ⟨sha256HexChars msg⟩

/-- Python string slicing `s[:n]` (by codepoint; every string sliced by
the sources is ASCII). -/
def pyStrTake (n : Nat) (s : String) : String :=
  ⟨s.data.take n⟩

/-- `hashlib.sha256(s.encode()).hexdigest()[:16]` — the security-hash
primitive both generators use. -/
def sha256Hex16OfString (s : String) : String :=
  ⟨(sha256HexChars (utf8Bytes s)).take 16⟩

/-! ## MD5 (`hashlib.md5`), used for file checksums -/

def md5K : List Nat :=
  [3614090360, 3905402710, 606105819, 3250441966, 4118548399, 1200080426, 2821735955, 4249261313,
   1770035416, 2336552879, 4294925233, 2304563134, 1804603682, 4254626195, 2792965006, 1236535329,
   4129170786, 3225465664, 643717713, 3921069994, 3593408605, 38016083, 3634488961, 3889429448,
   568446438, 3275163606, 4107603335, 1163531501, 2850285829, 4243563512, 1735328473, 2368359562,
   4294588738, 2272392833, 1839030562, 4259657740, 2763975236, 1272893353, 4139469664, 3200236656,
   681279174, 3936430074, 3572445317, 76029189, 3654602809, 3873151461, 530742520, 3299628645,
   4096336452, 1126891415, 2878612391, 4237533241, 1700485571, 2399980690, 4293915773, 2240044497,
   1873313359, 4264355552, 2734768916, 1309151649, 4149444226, 3174756917, 718787259, 3951481745]

def md5S : List Nat :=
  [7, 12, 17, 22, 7, 12, 17, 22, 7, 12, 17, 22, 7, 12, 17, 22,
   5, 9, 14, 20, 5, 9, 14, 20, 5, 9, 14, 20, 5, 9, 14, 20,
   4, 11, 16, 23, 4, 11, 16, 23, 4, 11, 16, 23, 4, 11, 16, 23,
   6, 10, 15, 21, 6, 10, 15, 21, 6, 10, 15, 21, 6, 10, 15, 21]

/-- 32-bit left rotation (argument below `2 ^ 32`). -/
def rotl32 (n x : Nat) : Nat := w32 ((x <<< n) ||| (x >>> (32 - n)))

/-- Little-endian bytes of `n`, `k` bytes wide. -/
def leBytes (k : Nat) (n : Nat) : List Nat :=
  (List.range k).map (fun i => n >>> (8 * i) % 256)

/-- MD5 padding: like SHA-256 but the length trailer is little-endian. -/
def md5Pad (msg : List Nat) : List Nat :=
  let z := (120 - (msg.length + 1) % 64) % 64
  msg ++ [128] ++ List.replicate z 0 ++ leBytes 8 (8 * msg.length)

/-- Little-endian 32-bit words from groups of four bytes. -/
def bytesToWordsLE : List Nat → List Nat
  | b0 :: b1 :: b2 :: b3 :: rest =>
      (b3 * 16777216 + b2 * 65536 + b1 * 256 + b0) :: bytesToWordsLE rest
  | _ => []

structure Md5State where
  a : Nat
  b : Nat
  c : Nat
  d : Nat
deriving DecidableEq

def md5Init : Md5State := ⟨1732584193, 4023233417, 2562383102, 271733878⟩

def md5Round (m : List Nat) (st : Md5State) (i : Nat) : Md5State :=
  let fg : Nat × Nat :=
    if i < 16 then ((st.b &&& st.c) ||| (not32 st.b &&& st.d), i)
    else if i < 32 then ((st.d &&& st.b) ||| (not32 st.d &&& st.c), (5 * i + 1) % 16)
    else if i < 48 then (st.b ^^^ st.c ^^^ st.d, (3 * i + 5) % 16)
    else (st.c ^^^ (st.b ||| not32 st.d), 7 * i % 16)
  let f := w32 (fg.1 + st.a + md5K.getD i 0 + m.getD fg.2 0)
  ⟨st.d, w32 (st.b + rotl32 (md5S.getD i 0) f), st.b, st.c⟩

def md5Block (hs : Md5State) (block : List Nat) : Md5State :=
  let m := bytesToWordsLE block
  let st := (List.range 64).foldl (md5Round m) hs
  ⟨w32 (hs.a + st.a), w32 (hs.b + st.b), w32 (hs.c + st.c), w32 (hs.d + st.d)⟩

def byteHexChars (b : Nat) : List Char :=
  [hexDigitChar (b / 16 % 16), hexDigitChar (b % 16)]

/-- `hashlib.md5(bytes).hexdigest()`. -/
def md5Hex (msg : List Nat) : String :=
  let hs := (pyChunks 64 (md5Pad msg)).foldl md5Block md5Init
  ⟨[hs.a, hs.b, hs.c, hs.d].flatMap (fun w => (leBytes 4 w).flatMap byteHexChars)⟩

/-! ## `datetime` values

The code reads only a handful of facets of each `datetime.datetime`: the
subtraction used by `timedelta.days`, a few `strftime` renderings,
`.hour`, and `.isoformat()`.  A `PyDatetime` carries those facets
directly; the calendar arithmetic connecting them is the standard
library's and is not re-derived here. -/

structure PyDatetime where
  /-- seconds since the epoch; `(t1 - t2).days == floor((s1 - s2)/86400)` -/
  epochSeconds : Int
  /-- `strftime("%Y%m%d")` -/
  yyyymmdd : String
  /-- `strftime("%Y/%m")` -/
  yearMonthPath : String
  /-- `strftime("%d")` -/
  dayStr : String
  /-- `.hour` (`0 ..= 23` for a real datetime) -/
  hour : Int
  /-- `.isoformat()` -/
  iso : String
deriving DecidableEq

/-- `(now - created).days`: `timedelta` normalises with floor division,
also for negative spans. -/
def timedeltaDays (now created : PyDatetime) : Int :=
  Int.fdiv (now.epochSeconds - created.epochSeconds) 86400

/-! ## `qr_generator_gov.py` — payload encoder (`QRCodeData`) -/

/-- The four fields `QRCodeData._generate_security_hash` feeds to the
hash, as a tuple so that single-field tampering can be quantified. -/
structure QRFields where
  citizen_id : String
  document_type : String
  expiry_date : String
  /-- `datetime.now().isoformat()` captured at construction -/
  created_at : String
deriving DecidableEq

def qrFieldGet : Fin 4 → QRFields → String
  | 0, f => f.citizen_id
  | 1, f => f.document_type
  | 2, f => f.expiry_date
  | 3, f => f.created_at

def qrFieldSet : Fin 4 → QRFields → String → QRFields
  | 0, f, x => { f with citizen_id := x }
  | 1, f, x => { f with document_type := x }
  | 2, f, x => { f with expiry_date := x }
  | 3, f, x => { f with created_at := x }

/-- The f-string `f"{citizen_id}:{document_type}:{expiry_date}:{created_at}"`
hashed by `QRCodeData._generate_security_hash`.  Note that `self.id` is
not part of it. -/
def qrSecurityHashInput (f : QRFields) : String :=
  f.citizen_id ++ ":" ++ f.document_type ++ ":" ++ f.expiry_date ++ ":" ++ f.created_at

/-- `QRCodeData._generate_security_hash`. -/
def generate_security_hash (f : QRFields) : String :=
  sha256Hex16OfString (qrSecurityHashInput f)

structure QRCodeData where
  /-- `str(uuid.uuid4())`, modelled as caller-supplied randomness -/
  id : String
  citizen_id : String
  document_type : String
  expiry_date : String
  created_at : String
  security_hash : String
deriving DecidableEq

/-- `QRCodeData.__init__` with `security_hash=None` (the generation path):
the hash is derived from the four business/timestamp fields. -/
def mkQRCodeData (id : String) (f : QRFields) : QRCodeData :=
  { id := id, citizen_id := f.citizen_id, document_type := f.document_type,
    expiry_date := f.expiry_date, created_at := f.created_at,
    security_hash := generate_security_hash f }

/-- `QRCodeData.to_qr_data`: compact JSON in insertion order. -/
def to_qr_data (q : QRCodeData) : String :=
  jsonObjCompact
    [("id", jsonStr q.id), ("citizen_id", jsonStr q.citizen_id),
     ("type", jsonStr q.document_type), ("exp", jsonStr q.expiry_date),
     ("hash", jsonStr q.security_hash), ("ts", jsonStr q.created_at)]

/-! ## `qr_generator_gov.py` — batch generation coordinator

`process_qr_batch` walks its batch sequentially, bumping `success_count`
or `error_count` per artifact; `generate_qr_codes_parallel` splits the
request list into `BATCH_SIZE` slices, submits each as a future, and on a
future timeout/exception books a result of `success_count=0,
error_count=BATCH_SIZE`.  `_calculate_final_stats` folds the batch
results into the (freshly zeroed) stats dict.  Per-artifact success and
future delivery are environment-dependent (rendering, the 300 s timeout),
so they enter as oracles `ok : α → Bool` and `delivered : Nat → Bool`. -/

structure BatchResult where
  success_count : Nat
  error_count : Nat
  total_size : Nat
deriving DecidableEq

/-- `process_qr_batch`: the per-batch loop over `generate_single_qr`
outcomes (`size` is the written file's size when generation succeeds). -/
def process_qr_batch {α : Type} (ok : α → Bool) (size : α → Nat)
    (batch : List α) : BatchResult :=
  batch.foldl
    (fun r q =>
      if ok q then
        { r with success_count := r.success_count + 1, total_size := r.total_size + size q }
      else { r with error_count := r.error_count + 1 })
    ⟨0, 0, 0⟩

/-- The `batch_results` list collected by `generate_qr_codes_parallel`:
future `i` either delivers `process_qr_batch` on its slice, or times
out/raises and is booked as `BATCH_SIZE` errors. -/
def coordinatorBatchResults {α : Type} (B : Nat) (ok : α → Bool) (size : α → Nat)
    (delivered : Nat → Bool) (l : List α) : List BatchResult :=
  (pyChunks B l).enum.map
    (fun p => if delivered p.1 then process_qr_batch ok size p.2 else ⟨0, B, 0⟩)

/-- `stats['total_generated']` after `_calculate_final_stats` on a fresh
(zero-initialised) generator. -/
def coordinatorTotalGenerated {α : Type} (B : Nat) (ok : α → Bool) (size : α → Nat)
    (delivered : Nat → Bool) (l : List α) : Nat :=
  (coordinatorBatchResults B ok size delivered l).foldl (fun s r => s + r.success_count) 0

/-- `stats['total_errors']` after `_calculate_final_stats` on a fresh
generator. -/
def coordinatorTotalErrors {α : Type} (B : Nat) (ok : α → Bool) (size : α → Nat)
    (delivered : Nat → Bool) (l : List α) : Nat :=
  (coordinatorBatchResults B ok size delivered l).foldl (fun s r => s + r.error_count) 0

/-! ## `exemples_code_implementation.py` — `QRGenerationService` -/

/-- The `Order` row (SQLAlchemy model); fields beyond `id` and
`company_id` are carried to show the hash ignores them. -/
structure Order where
  id : String
  certification_id : String
  company_id : String
  estampilleur_id : String
  quantity : Nat
  status : String
  payment_status : String
deriving DecidableEq

/-- The `Certification` row. -/
structure Certification where
  id : String
  company_id : String
  product_name : String
  product_category : String
  expiry_date : PyDatetime
  occ_officer : String
  status : String
deriving DecidableEq

structure QRGenResult where
  qr_id : String
  qr_data : String
  security_hash : String
deriving DecidableEq

/-- `QRGenerationService.generate_secure_qr_data`.  `now` is
`datetime.now()` at the moment of the call; its `%Y%m%d` rendering is
embedded in the id.  `data_string` is `json.dumps(qr_data,
sort_keys=True)` with default separators; for these eight literal keys
the sorted order is `cert, comp, exp, gov, id, prod, seq, v`. -/
def generate_secure_qr_data (order : Order) (certification : Certification)
    (sequence : Nat) (now : PyDatetime) : QRGenResult :=
  let qr_id := "gov-cg-" ++ now.yyyymmdd ++ "-" ++ pyFmt08 sequence
  let data_string := jsonObjSpaced
    [("cert", jsonStr certification.id),
     ("comp", jsonStr order.company_id),
     ("exp", jsonStr certification.expiry_date.yyyymmdd),
     ("gov", jsonStr "cg"),
     ("id", jsonStr qr_id),
     ("prod", jsonStr (pyStrTake 20 certification.product_name)),
     ("seq", toString sequence),
     ("v", jsonStr "1.0")]
  let security_hash :=
    sha256Hex16OfString (data_string ++ ":" ++ order.id ++ ":CONGO_SECRET_KEY")
  let qr_data_out := jsonObjCompact
    [("gov", jsonStr "cg"),
     ("id", jsonStr qr_id),
     ("cert", jsonStr certification.id),
     ("prod", jsonStr (pyStrTake 20 certification.product_name)),
     ("comp", jsonStr order.company_id),
     ("exp", jsonStr certification.expiry_date.yyyymmdd),
     ("seq", toString sequence),
     ("v", jsonStr "1.0"),
     ("hash", jsonStr security_hash)]
  { qr_id := qr_id, qr_data := qr_data_out, security_hash := security_hash }

/-! ## `storage_strategy.py` — configuration and tier selection -/

inductive CompressionLevel where
  | none_
  | low
  | medium
  | high
deriving DecidableEq

/-- `StorageConfig` dataclass with its `__post_init__` defaults. -/
structure StorageConfig where
  hot_storage_days : Int := 7
  warm_storage_days : Int := 90
  cold_storage_days : Int := 2555
  primary_datacenter : String := "dc1"
  backup_datacenters : List String := ["dc2", "dc3"]
  compression_level : CompressionLevel := CompressionLevel.medium
  enable_deduplication : Bool := true
  shards_per_day : Int := 24
  shard_size_limit_gb : Int := 50
deriving DecidableEq

def defaultStorageConfig : StorageConfig := {}

/-- `QRStorageManager._determine_storage_tier`:
`age_days = (datetime.now() - created_at).days`, then the two-threshold
if/elif/else chain. -/
def determine_storage_tier (cfg : StorageConfig) (created_at now : PyDatetime) : String :=
  let age_days := timedeltaDays now created_at
  if age_days ≤ cfg.hot_storage_days then "hot"
  else if age_days ≤ cfg.warm_storage_days then "warm"
  else "cold"

/-! ## `storage_strategy.py` — shard id (integer division hazards) -/

/-- Python `//` on ints, made partial exactly where Python raises
`ZeroDivisionError`. -/
def pyFloorDiv (a b : Int) : Option Int :=
  if b = 0 then none else some (Int.fdiv a b)

/-- The bucket index computed inside `_generate_shard_id`:
`created_at.hour // (24 // config.shards_per_day)`. -/
def shardBucketIndex (spd : Int) (hour : Int) : Option Int :=
  (pyFloorDiv 24 spd).bind (fun d => pyFloorDiv hour d)

/-- `QRStorageManager._generate_shard_id`:
`f"{storage_type}_{date_str}_{shard_hour:02d}"`, `none` when the bucket
computation divides by zero. -/
def generate_shard_id (spd : Int) (created_at : PyDatetime) (storage_type : String) :
    Option String :=
  (shardBucketIndex spd created_at.hour).map
    (fun b => storage_type ++ "_" ++ created_at.yyyymmdd ++ "_" ++ pyFmt02Int b)


/-! ## `storage_strategy.py` — sqlite state and the write/read paths -/

/-- One row of the `storage_shards` table. -/
structure ShardStats where
  created_at : String
  storage_type : String
  current_size_bytes : Int
  file_count : Int
  is_sealed : Bool
  backup_status : String
deriving DecidableEq

/-- The row `INSERT OR IGNORE` creates on first contact with a shard
(sqlite column defaults). -/
def shardFreshRow (now_iso storage_type : String) : ShardStats :=
  { created_at := now_iso, storage_type := storage_type,
    current_size_bytes := 0, file_count := 0, is_sealed := false,
    backup_status := "pending" }

/-- `QRStorageManager._update_shard_stats`: `INSERT OR IGNORE` the shard
row, add `file_size`/1 to its size/count, then re-read the size and set
`is_sealed = TRUE` when it exceeds `shard_size_limit_gb * 1024**3`.
Nothing ever clears the flag — and nothing consults it. -/
def update_shard_stats (cfg : StorageConfig) (shards : List (String × ShardStats))
    (shard_id : String) (storage_type : String) (file_size : Int) (now_iso : String) :
    List (String × ShardStats) :=
  let shards1 :=
    match assocLookup shards shard_id with
    | some _ => shards
    | none => shards ++ [(shard_id, shardFreshRow now_iso storage_type)]
  let shards2 := assocUpdate shards1 shard_id
    (fun s => { s with current_size_bytes := s.current_size_bytes + file_size,
                       file_count := s.file_count + 1 })
  match assocLookup shards2 shard_id with
  | none => shards2
  | some s =>
    if cfg.shard_size_limit_gb * 1073741824 < s.current_size_bytes then
      assocUpdate shards2 shard_id (fun t => { t with is_sealed := true })
    else shards2

/-- One row of the `qr_metadata` table — also the shape of the
`storage_info` dict `store_qr_file` returns (whose `created_at` is
persisted via `.isoformat()`). -/
structure MetaRecord where
  qr_id : String
  citizen_id : String
  document_type : String
  created_at : String
  file_path : String
  file_size : Int
  storage_type : String
  shard_id : String
  access_count : Int
  last_accessed : Option String
  checksum : String
  backup_locations : List String
deriving DecidableEq

/-- The whole mutable state `QRStorageManager` touches: the destination
filesystem and the two metadata tables. -/
structure StorageState where
  fs : List (String × List Nat)
  qr_metadata : List (String × MetaRecord)
  storage_shards : List (String × ShardStats)
deriving DecidableEq

/-- `QRStorageManager._schedule_backup`: one `f"{dc}:{path}"` target per
configured backup datacenter, written into the in-memory dict. -/
def schedule_backup_locations (cfg : StorageConfig) (file_path : String) : List String :=
  cfg.backup_datacenters.map (fun dc => dc ++ ":" ++ file_path)

/-- `QRStorageManager.store_qr_file`.  `optimize` stands for the external
`_copy_and_optimize_file` re-encoding (PIL), a pure byte transformation;
the bytes it returns are what lands at `dest_file_path` and what the MD5
checksum is computed over.  Steps, in source order: pick tier and shard,
write the file, checksum it, `_save_metadata` (with the still-empty
`backup_locations`), `_update_shard_stats`, and only then, for hot/warm
tiers, `_schedule_backup`, which mutates the returned dict but not the
saved row.  Returns `none` exactly when `_generate_shard_id` raises
`ZeroDivisionError`. -/
def store_qr_file (cfg : StorageConfig) (optimize : List Nat → List Nat)
    (st : StorageState) (qr_id citizen_id document_type : String)
    (source_bytes : List Nat) (created_at now : PyDatetime) :
    Option (MetaRecord × StorageState) :=
  let storage_tier := determine_storage_tier cfg created_at now
  match generate_shard_id cfg.shards_per_day created_at storage_tier with
  | none => none
  | some shard_id =>
    let dest_dir := "storage/" ++ storage_tier ++ "/" ++ created_at.yearMonthPath ++
      "/" ++ created_at.dayStr ++ "/" ++ shard_id
    let dest_file_path := dest_dir ++ "/" ++ qr_id ++ ".png"
    let file_bytes := optimize source_bytes
    let file_size : Int := file_bytes.length
    let checksum := md5Hex file_bytes
    let storage_info : MetaRecord :=
      { qr_id := qr_id, citizen_id := citizen_id, document_type := document_type,
        created_at := created_at.iso, file_path := dest_file_path,
        file_size := file_size, storage_type := storage_tier, shard_id := shard_id,
        access_count := 0, last_accessed := none, checksum := checksum,
        backup_locations := [] }
    let st1 : StorageState :=
      { fs := assocInsertOrReplace st.fs dest_file_path file_bytes,
        qr_metadata := assocInsertOrReplace st.qr_metadata qr_id storage_info,
        storage_shards := update_shard_stats cfg st.storage_shards shard_id
          storage_tier file_size now.iso }
    let returned :=
      if storage_tier = "hot" ∨ storage_tier = "warm" then
        { storage_info with
            backup_locations := schedule_backup_locations cfg dest_file_path }
      else storage_info
    some (returned, st1)

/-- `store_qr_file` with the `Option` collapsed for theorem statements
(`getD` against the unchanged state; meaningful under a config whose
shard arithmetic does not divide by zero). -/
def storeResultD (cfg : StorageConfig) (optimize : List Nat → List Nat)
    (st : StorageState) (qr_id citizen_id document_type : String)
    (source_bytes : List Nat) (created_at now : PyDatetime) :
    MetaRecord × StorageState :=
  (store_qr_file cfg optimize st qr_id citizen_id document_type source_bytes
    created_at now).getD
    ({ qr_id := qr_id, citizen_id := citizen_id, document_type := document_type,
       created_at := created_at.iso, file_path := "", file_size := 0,
       storage_type := "", shard_id := "", access_count := 0,
       last_accessed := none, checksum := "", backup_locations := [] }, st)

/-- `QRStorageManager.retrieve_qr_file`: point `SELECT` by id; on a hit,
bump `access_count` and stamp `last_accessed` before returning the row
that was read (the pre-update tuple); on a miss, return `None` leaving
the database untouched. -/
def retrieve_qr_file (st : StorageState) (qr_id : String) (now : PyDatetime) :
    Option MetaRecord × StorageState :=
  match assocLookup st.qr_metadata qr_id with
  | none => (none, st)
  | some row =>
    let bump := fun (r : MetaRecord) =>
      { r with access_count := r.access_count + 1, last_accessed := some now.iso }
    (some row, { st with qr_metadata := assocUpdate st.qr_metadata qr_id bump })


/-! ## Spec-side definitions for refinement comparison -/

/-- The tier rule as the specification words it (cumulative windows):
hot if `age ≤ hotWindow`, warm if `age ≤ hotWindow + warmWindow`, else
cold.  Kept separate so it can be compared against the code's rule. -/
def tierCumulativeWindowsSpec (cfg : StorageConfig) (age_days : Int) : String :=
  if age_days ≤ cfg.hot_storage_days then "hot"
  else if age_days ≤ cfg.hot_storage_days + cfg.warm_storage_days then "warm"
  else "cold"

/-- The age-threshold rule the code actually implements, as a pure
function of the age alone: the warm threshold is `warm_storage_days`
itself, not `hot + warm`. -/
def tierOfAgeRule (cfg : StorageConfig) (age_days : Int) : String :=
  if age_days ≤ cfg.hot_storage_days then "hot"
  else if age_days ≤ cfg.warm_storage_days then "warm"
  else "cold"

/-! ## Association-list lemmas -/

theorem assocLookup_insertOrReplace_self {β : Type} (l : List (String × β)) (k : String)
    (v : β) : assocLookup (assocInsertOrReplace l k v) k = some v := by
  induction l with
  | nil => simp [assocInsertOrReplace, assocLookup]
  | cons p rest ih =>
    by_cases hp : p.1 = k
    · simp [assocInsertOrReplace, hp, assocLookup]
    · simp only [assocInsertOrReplace, if_neg hp, assocLookup, if_neg hp]
      exact ih

theorem assocLookup_update_self {β : Type} (l : List (String × β)) (k : String)
    (f : β → β) : assocLookup (assocUpdate l k f) k = (assocLookup l k).map f := by
  induction l with
  | nil => simp [assocUpdate, assocLookup]
  | cons p rest ih =>
    by_cases hp : p.1 = k
    · simp [assocUpdate, hp, assocLookup]
    · simp only [assocUpdate, if_neg hp, assocLookup, if_neg hp]
      exact ih

theorem assocLookup_update_ne {β : Type} (l : List (String × β)) (k j : String)
    (f : β → β) (hne : j ≠ k) : assocLookup (assocUpdate l k f) j = assocLookup l j := by
  induction l with
  | nil => simp [assocUpdate, assocLookup]
  | cons p rest ih =>
    by_cases hp : p.1 = k
    · have hpj : ¬p.1 = j := by rw [hp]; exact fun hc => hne hc.symm
      have hkj : ¬k = j := fun hc => hne hc.symm
      simp only [assocUpdate, if_pos hp, assocLookup, if_neg hpj, if_neg hkj]
      exact ih
    · by_cases hj : p.1 = j
      · simp only [assocUpdate, if_neg hp, assocLookup, if_pos hj]
      · simp only [assocUpdate, if_neg hp, assocLookup, if_neg hj]
        exact ih

theorem assocLookup_append_of_none {β : Type} (l m : List (String × β)) (k : String)
    (h : assocLookup l k = none) : assocLookup (l ++ m) k = assocLookup m k := by
  induction l with
  | nil => simp
  | cons p rest ih =>
    by_cases hp : p.1 = k
    · simp [assocLookup, hp] at h
    · simp only [assocLookup, if_neg hp] at h
      simp only [List.cons_append, assocLookup, if_neg hp]
      exact ih h

/-! ## String cancellation lemmas -/

theorem string_append_cancel_left {a b c : String} (h : a ++ b = a ++ c) : b = c := by
  apply String.ext
  have hd : a.data ++ b.data = a.data ++ c.data := by
    rw [← String.data_append, ← String.data_append, h]
  exact List.append_cancel_left hd

theorem string_append_cancel_right {a b c : String} (h : a ++ c = b ++ c) : a = b := by
  apply String.ext
  have hd : a.data ++ c.data = b.data ++ c.data := by
    rw [← String.data_append, ← String.data_append, h]
  exact List.append_cancel_right hd

/-! ## Decimal rendering lemmas (for the id format) -/

theorem natDigitsLE_eq_digits : ∀ (fuel n : Nat), n ≤ fuel →
    natDigitsLE fuel n = Nat.digits 10 n := by
  intro fuel
  induction fuel with
  | zero =>
    intro n hn
    have : n = 0 := Nat.le_zero.mp hn
    subst this
    simp [natDigitsLE]
  | succ f ih =>
    intro n hn
    rcases Nat.eq_zero_or_pos n with rfl | hpos
    · simp [natDigitsLE]
    · have hne : n ≠ 0 := Nat.pos_iff_ne_zero.mp hpos
      rw [natDigitsLE, if_neg hne]
      rw [Nat.digits_def' (by norm_num : (1:Nat) < 10) hpos]
      congr 1
      apply ih
      have := Nat.div_lt_self hpos (by norm_num : (1:Nat) < 10)
      omega

theorem digit_char_toNat {d : Nat} (hd : d < 10) : (Char.ofNat (48 + d)).toNat = 48 + d := by
  interval_cases d <;> decide

theorem digit_char_isDigit {d : Nat} (hd : d < 10) :
    (Char.ofNat (48 + d)).isDigit = true := by
  interval_cases d <;> decide

theorem foldl_val_replicate_zero (k : Nat) :
    List.foldl (fun a c => 10 * a + (c.toNat - 48)) 0 (List.replicate k '0') = 0 := by
  induction k with
  | zero => rfl
  | succ m ih => simpa [List.replicate_succ, List.foldl_cons] using ih

theorem decimalCharsVal_replicate_append (k : Nat) (cs : List Char) :
    decimalCharsVal (List.replicate k '0' ++ cs) = decimalCharsVal cs := by
  unfold decimalCharsVal
  rw [List.foldl_append, foldl_val_replicate_zero]

theorem foldl_val_snoc (cs : List Char) (c : Char) (a : Nat) :
    List.foldl (fun a c => 10 * a + (c.toNat - 48)) a (cs ++ [c]) =
      10 * (List.foldl (fun a c => 10 * a + (c.toNat - 48)) a cs) + (c.toNat - 48) := by
  rw [List.foldl_append]
  rfl

theorem valChars_of_digitsList (L : List Nat) (hL : ∀ d ∈ L, d < 10) :
    decimalCharsVal ((L.map (fun d => Char.ofNat (48 + d))).reverse) = Nat.ofDigits 10 L := by
  induction L with
  | nil => rfl
  | cons d T ih =>
    have hd : d < 10 := hL d (List.mem_cons_self d T)
    have hT : ∀ x ∈ T, x < 10 := fun x hx => hL x (List.mem_cons_of_mem d hx)
    unfold decimalCharsVal at *
    rw [List.map_cons, List.reverse_cons, foldl_val_snoc, ih hT]
    rw [digit_char_toNat hd, Nat.ofDigits_cons]
    omega

theorem decimalCharsVal_natDecimalChars (n : Nat) :
    decimalCharsVal (natDecimalChars n) = n := by
  unfold natDecimalChars
  rcases eq_or_ne n 0 with rfl | hn
  · rfl
  · rw [if_neg hn, natDigitsLE_eq_digits n n le_rfl, List.map_reverse]
    rw [valChars_of_digitsList _ (fun d hd => Nat.digits_lt_base (by norm_num) hd)]
    exact Nat.ofDigits_digits 10 n

theorem pyFmt08_val (n : Nat) : decimalCharsVal (pyFmt08 n).data = n := by
  show decimalCharsVal
    (List.replicate (8 - (natDecimalChars n).length) '0' ++ natDecimalChars n) = n
  rw [decimalCharsVal_replicate_append, decimalCharsVal_natDecimalChars]

theorem pyFmt08_inj {m n : Nat} (h : pyFmt08 m = pyFmt08 n) : m = n := by
  have := congrArg (fun s => decimalCharsVal s.data) h
  simpa [pyFmt08_val] using this

theorem natDecimalChars_length_le {n : Nat} (h : n < 100000000) :
    (natDecimalChars n).length ≤ 8 := by
  unfold natDecimalChars
  rcases eq_or_ne n 0 with rfl | hn
  · simp
  · rw [if_neg hn, natDigitsLE_eq_digits n n le_rfl]
    rw [List.length_map, List.length_reverse]
    by_contra hgt
    push_neg at hgt
    have hle : 10 ^ (Nat.digits 10 n).length ≤ 10 * n :=
      Nat.base_pow_length_digits_le 10 n (by norm_num) hn
    have h9 : (10:Nat) ^ 9 ≤ 10 ^ (Nat.digits 10 n).length :=
      Nat.pow_le_pow_right (by norm_num) hgt
    omega

theorem pyFmt08_length {n : Nat} (h : n < 100000000) : (pyFmt08 n).length = 8 := by
  have hle := natDecimalChars_length_le h
  show (List.replicate (8 - (natDecimalChars n).length) '0' ++ natDecimalChars n).length = 8
  rw [List.length_append, List.length_replicate]
  omega

theorem natDecimalChars_digits (n : Nat) : ∀ c ∈ natDecimalChars n, c.isDigit = true := by
  unfold natDecimalChars
  rcases eq_or_ne n 0 with rfl | hn
  · intro c hc
    simp at hc
    subst hc
    decide
  · rw [if_neg hn, natDigitsLE_eq_digits n n le_rfl]
    intro c hc
    rw [List.map_reverse, List.mem_reverse, List.mem_map] at hc
    obtain ⟨d, hd, rfl⟩ := hc
    exact digit_char_isDigit (Nat.digits_lt_base (by norm_num) hd)

theorem pyFmt08_chars_digits (n : Nat) : ∀ c ∈ (pyFmt08 n).data, c.isDigit = true := by
  intro c hc
  have hm : c ∈ (List.replicate (8 - (natDecimalChars n).length) '0' ++
      natDecimalChars n) := hc
  rw [List.mem_append] at hm
  rcases hm with hrep | hdig
  · have := List.eq_of_mem_replicate hrep
    subst this
    decide
  · exact natDecimalChars_digits n c hdig

theorem qr_gov_id_inj (date : String) {s1 s2 : Nat}
    (h : "gov-cg-" ++ date ++ "-" ++ pyFmt08 s1 = "gov-cg-" ++ date ++ "-" ++ pyFmt08 s2) :
    s1 = s2 := by
  have hd := congrArg String.data h
  simp only [String.data_append, ← List.append_assoc] at hd
  have := List.append_cancel_left hd
  exact pyFmt08_inj (String.ext this)

/-! ## Chunking and coordinator lemmas -/

theorem pyChunks_nil {α : Type} (B : Nat) : pyChunks B ([] : List α) = [] := by
  have h : (B - 1) / B = 0 := by
    rcases Nat.eq_zero_or_pos B with rfl | hB
    · simp
    · exact Nat.div_eq_of_lt (by omega)
  simp [pyChunks, h]

theorem pyChunks_cons {α : Type} (B : Nat) (hB : 0 < B) (l : List α) (hl : l ≠ []) :
    pyChunks B l = l.take B :: pyChunks B (l.drop B) := by
  have hlen : 0 < l.length := List.length_pos.mpr hl
  have hcount : (l.length + B - 1) / B = ((l.drop B).length + B - 1) / B + 1 := by
    rw [List.length_drop]
    rcases le_or_lt l.length B with h | h
    · have h1 : l.length - B = 0 := by omega
      rw [h1]
      have h2 : (0 + B - 1) / B = 0 := Nat.div_eq_of_lt (by omega)
      have h3 : l.length + B - 1 = (l.length - 1) + B := by omega
      rw [h2, h3, Nat.add_div_right _ hB]
      have h4 : (l.length - 1) / B = 0 := Nat.div_eq_of_lt (by omega)
      omega
    · have h3 : l.length + B - 1 = (l.length - 1) + B := by omega
      have h4 : l.length - B + B - 1 = (l.length - B - 1) + B := by omega
      have h5 : l.length - 1 = (l.length - B - 1) + B := by omega
      rw [h3, h4, Nat.add_div_right _ hB, Nat.add_div_right _ hB, h5, Nat.add_div_right _ hB]
  unfold pyChunks
  rw [hcount, List.range_succ_eq_map]
  rw [List.map_cons]
  refine congrArg₂ List.cons ?_ ?_
  · simp
  · rw [List.map_map]
    apply List.map_congr_left
    intro i _
    simp only [Function.comp_apply]
    rw [List.drop_drop]
    congr 2
    rw [Nat.succ_mul]
    omega

theorem pyChunks_sum_lengths {α : Type} (B : Nat) (hB : 0 < B) (l : List α) :
    ((pyChunks B l).map List.length).sum = l.length := by
  have H : ∀ (n : Nat) (l : List α), l.length = n →
      ((pyChunks B l).map List.length).sum = l.length := by
    intro n
    induction n using Nat.strong_induction_on with
    | _ n ih =>
      intro l hln
      rcases eq_or_ne l [] with rfl | hl
      · simp [pyChunks_nil]
      · rw [pyChunks_cons B hB l hl, List.map_cons, List.sum_cons]
        have hlen : 0 < l.length := List.length_pos.mpr hl
        have hdrop : (l.drop B).length < n := by
          rw [List.length_drop]; omega
        rw [ih _ hdrop (l.drop B) rfl]
        rw [List.length_take, List.length_drop]
        omega
  exact H l.length l rfl

theorem enum_map_snd {α : Type} (l : List α) : l.enum.map Prod.snd = l := by
  simp

theorem process_qr_batch_counts {α : Type} (ok : α → Bool) (size : α → Nat)
    (batch : List α) :
    (process_qr_batch ok size batch).success_count +
      (process_qr_batch ok size batch).error_count = batch.length := by
  suffices h : ∀ acc : BatchResult,
      (batch.foldl (fun r q =>
        if ok q then
          { r with success_count := r.success_count + 1, total_size := r.total_size + size q }
        else { r with error_count := r.error_count + 1 }) acc).success_count +
      (batch.foldl (fun r q =>
        if ok q then
          { r with success_count := r.success_count + 1, total_size := r.total_size + size q }
        else { r with error_count := r.error_count + 1 }) acc).error_count
        = acc.success_count + acc.error_count + batch.length by
    simpa [process_qr_batch] using h ⟨0, 0, 0⟩
  induction batch with
  | nil => intro acc; simp
  | cons q t ih =>
    intro acc
    simp only [List.foldl_cons, List.length_cons]
    rw [ih]
    by_cases hq : ok q <;> simp [hq] <;> omega

theorem foldl_add_eq_sum {β : Type} (f : β → Nat) (rs : List β) (a : Nat) :
    rs.foldl (fun s r => s + f r) a = a + (rs.map f).sum := by
  induction rs generalizing a with
  | nil => simp
  | cons r t ih => rw [List.foldl_cons, ih, List.map_cons, List.sum_cons]; omega

theorem sum_map_add {β : Type} (f g : β → Nat) (rs : List β) :
    (rs.map f).sum + (rs.map g).sum = (rs.map (fun r => f r + g r)).sum := by
  induction rs with
  | nil => simp
  | cons r t ih => simp only [List.map_cons, List.sum_cons]; omega

/-! ## Integer floor-division lemmas (for the shard bucket) -/

theorem nat_div24_eq_zero_iff (n : Nat) : 24 / n = 0 ↔ (n = 0 ∨ 24 < n) := by
  rcases Nat.eq_zero_or_pos n with rfl | hn
  · simp
  · rw [Nat.div_eq_zero_iff hn]; omega

theorem int_fdiv24_eq_zero_iff (spd : Int) : Int.fdiv 24 spd = 0 ↔ (spd = 0 ∨ 24 < spd) := by
  cases spd with
  | ofNat n =>
    have h : Int.fdiv 24 (Int.ofNat n) = Int.ofNat (24 / n) := rfl
    rw [h, Int.ofNat_eq_coe]
    rw [Int.ofNat_eq_coe] at *
    constructor
    · intro he
      have h0 : 24 / n = 0 := by omega
      rcases (nat_div24_eq_zero_iff n).mp h0 with h1 | h1 <;> omega
    · intro he
      have h0 : 24 / n = 0 := (nat_div24_eq_zero_iff n).mpr (by omega)
      omega
  | negSucc n =>
    have h : Int.fdiv 24 (Int.negSucc n) = Int.negSucc (23 / (n + 1)) := rfl
    rw [h]
    simp only [Int.negSucc_eq]
    constructor
    · intro he
      exfalso
      generalize 23 / (n + 1) = q at he
      omega
    · intro he
      exfalso
      rcases he with he | he <;> omega

theorem shardBucketIndex_isSome_iff (spd hour : Int) :
    (shardBucketIndex spd hour).isSome ↔ (spd ≠ 0 ∧ spd ≤ 24) := by
  unfold shardBucketIndex pyFloorDiv
  rcases eq_or_ne spd 0 with rfl | hs
  · simp
  · rw [if_neg hs, Option.some_bind]
    rcases eq_or_ne (Int.fdiv 24 spd) 0 with hz | hz
    · rw [if_pos hz]
      constructor
      · intro hc; simp at hc
      · intro hc
        rcases (int_fdiv24_eq_zero_iff spd).mp hz with h0 | h24
        · exact absurd h0 hs
        · omega
    · rw [if_neg hz]
      constructor
      · intro _
        refine ⟨hs, ?_⟩
        by_contra hgt
        exact hz ((int_fdiv24_eq_zero_iff spd).mpr (Or.inr (by omega)))
      · intro _; rfl

/-! ## Claim C1 — coordinator accounting -/

/-- C1 counterexample: a single batch of one request with batch size
`B = 2` whose future fails is booked as `BATCH_SIZE = 2` errors, so the
aggregate is `successCount + errorCount = 2` for a request list of
length 1: the claimed identity `success + errors = N` fails when a
partial (smaller-than-`B`) batch times out or raises. -/
theorem C1_counterexample :
    coordinatorTotalGenerated 2 (fun _ => true) (fun _ => 0) (fun _ => false) [0] +
      coordinatorTotalErrors 2 (fun _ => true) (fun _ => 0) (fun _ => false) [0] = 2 ∧
    ([0] : List Nat).length = 1 := by
  refine ⟨by decide, rfl⟩

/-- C1 amended: for a coordinator invocation on a fresh (zero-initialised)
stats dict over a request list of length N with batch size B, the
aggregate report satisfies `successCount + errorCount = N` provided every
batch whose future fails to deliver (timeout or exception) has the full
configured size B — in particular whenever no batch fails, or whenever B
divides N.  A failed final partial batch is charged B errors, which is
what breaks the unconditional identity. -/
theorem C1_amended {α : Type} (B : Nat) (hB : 0 < B) (l : List α) (ok : α → Bool)
    (size : α → Nat) (delivered : Nat → Bool)
    (hfull : ∀ p ∈ (pyChunks B l).enum, delivered p.1 = false → p.2.length = B) :
    coordinatorTotalGenerated B ok size delivered l +
      coordinatorTotalErrors B ok size delivered l = l.length := by
  unfold coordinatorTotalGenerated coordinatorTotalErrors coordinatorBatchResults
  rw [foldl_add_eq_sum, foldl_add_eq_sum, Nat.zero_add, Nat.zero_add]
  rw [List.map_map, List.map_map, sum_map_add]
  have hterm : ((pyChunks B l).enum.map
      (fun p => (BatchResult.success_count ∘ fun p =>
          if delivered p.1 then process_qr_batch ok size p.2 else ⟨0, B, 0⟩) p +
        (BatchResult.error_count ∘ fun p =>
          if delivered p.1 then process_qr_batch ok size p.2 else ⟨0, B, 0⟩) p)) =
      (pyChunks B l).enum.map (fun p => p.2.length) := by
    apply List.map_congr_left
    intro p hp
    simp only [Function.comp_apply]
    by_cases hd : delivered p.1
    · simp only [if_pos hd]
      exact process_qr_batch_counts ok size p.2
    · simp only [if_neg hd]
      have := hfull p hp (by simpa using hd)
      simp [this]
  rw [hterm]
  have hsnd : (pyChunks B l).enum.map (fun p => p.2.length) =
      ((pyChunks B l).enum.map Prod.snd).map List.length := by
    rw [List.map_map]; rfl
  rw [hsnd, enum_map_snd, pyChunks_sum_lengths B hB]

/-- C1 witness: four requests, batch size two, first batch's future lost
(and of full size two), so the identity holds: 2 + 2 = 4. -/
theorem C1_amended_witness :
    (0 < 2 ∧ ∀ p ∈ (pyChunks 2 [10, 20, 30, 40]).enum,
      (fun (i : Nat) => i == 0) p.1 = false → p.2.length = 2) ∧
    coordinatorTotalGenerated 2 (fun q => q < 25) (fun q => q) (fun i => i == 0)
        [10, 20, 30, 40] +
      coordinatorTotalErrors 2 (fun q => q < 25) (fun q => q) (fun i => i == 0)
        [10, 20, 30, 40] = ([10, 20, 30, 40] : List Nat).length :=
  ⟨⟨by decide, by decide⟩,
    C1_amended 2 (by decide) [10, 20, 30, 40] (fun q => q < 25) (fun q => q)
      (fun i => i == 0) (by decide)⟩

/-! ## Claim C2 — tier selection -/

def c2created : PyDatetime :=
  ⟨0, "20230928", "2023/09", "28", 0, "2023-09-28T00:00:00"⟩

def c2now : PyDatetime :=
  ⟨8208000, "20240101", "2024/01", "01", 0, "2024-01-01T00:00:00"⟩

/-- C2 counterexample: with the default windows hot=7/warm=90, an
artifact aged 95 days resolves to "cold" in the code (the warm branch
compares the age against `warm_storage_days = 90` alone), while the
claimed rule `warm if age ≤ hotWindow + warmWindow = 97` would say
"warm". -/
theorem C2_counterexample :
    timedeltaDays c2now c2created = 95 ∧
    determine_storage_tier defaultStorageConfig c2created c2now = "cold" ∧
    tierCumulativeWindowsSpec defaultStorageConfig 95 = "warm" := by
  refine ⟨by decide, by decide, by decide⟩

/-- C2 amended: tier selection is a pure function of the age in days and
the config, with thresholds `age ≤ hot_storage_days` for hot and
`age ≤ warm_storage_days` (not hot+warm) for warm; the same
`_determine_storage_tier` is the function called at write time and at
migration time, and under the default windows the claim's concrete
examples hold: age 3 is hot, age 40 is warm, age 400 is cold. -/
theorem C2_amended (cfg : StorageConfig) (created now : PyDatetime) :
    determine_storage_tier cfg created now = tierOfAgeRule cfg (timedeltaDays now created) ∧
    tierOfAgeRule defaultStorageConfig 3 = "hot" ∧
    tierOfAgeRule defaultStorageConfig 40 = "warm" ∧
    tierOfAgeRule defaultStorageConfig 400 = "cold" :=
  ⟨rfl, by decide, by decide, by decide⟩

/-! ## Claim C10 — shard bucket divisor -/

/-- C10 counterexample: with `shards_per_day = -1` (an int outside
1..24), the bucket computation `hour // (24 // shards_per_day)`
terminates without error for every hour of the day (Python floor
division of negatives never yields the zero divisor), refuting the
claimed "terminates iff buckets-per-day is between 1 and 24". -/
theorem C10_counterexample :
    ((List.range 24).all (fun h => (shardBucketIndex (-1) (Int.ofNat h)).isSome)) = true ∧
    ¬((1 : Int) ≤ -1 ∧ (-1 : Int) ≤ 24) := by
  refine ⟨by decide, by decide⟩

/-- C10 amended: for every timestamp, `_generate_shard_id` terminates
without a `ZeroDivisionError` if and only if `shards_per_day` is nonzero
and at most 24; in particular for `shards_per_day > 24` the divisor
`24 // shards_per_day` is zero and the computation fails for every
timestamp, but negative values also terminate, so the terminating set is
not exactly 1..24. -/
theorem C10_amended (spd : Int) (t : PyDatetime) (ty : String) :
    (generate_shard_id spd t ty).isSome ↔ (spd ≠ 0 ∧ spd ≤ 24) := by
  unfold generate_shard_id
  rw [Option.isSome_map']
  exact shardBucketIndex_isSome_iff spd t.hour

/-! ## Claim C3 — shard sealing -/

def c3cfg : StorageConfig := { shard_size_limit_gb := 0 }

def c3t : PyDatetime :=
  ⟨1704067200, "20240101", "2024/01", "01", 0, "2024-01-01T00:00:00"⟩

def c3state1 : StorageState :=
  (storeResultD c3cfg (fun b => b) ⟨[], [], []⟩ "q1" "c1" "ID_CARD" [1] c3t c3t).2

def c3state2 : StorageState :=
  (storeResultD c3cfg (fun b => b) c3state1 "q2" "c2" "ID_CARD" [1] c3t c3t).2

/-- C3 counterexample: with a shard size limit of 0 GB, the first stored
artifact seals shard `hot_20240101_00`, yet a second `store_qr_file`
call still assigns a new artifact to that sealed shard (its metadata row
carries the shard id and the shard's file count rises to 2): nothing in
the write path consults the sealed flag, refuting "once sealed=true, no
subsequent write assigns a new artifact to that shard". -/
theorem C3_counterexample :
    ((assocLookup c3state1.storage_shards "hot_20240101_00").map
      (fun s => s.is_sealed) = some true) ∧
    ((assocLookup c3state2.qr_metadata "q2").map
      (fun m => m.shard_id) = some "hot_20240101_00") ∧
    ((assocLookup c3state2.storage_shards "hot_20240101_00").map
      (fun s => (s.is_sealed, s.file_count)) = some (true, 2)) := by
  refine ⟨by decide, by decide, by decide⟩

/-- C3 amended: after any single `_update_shard_stats` call the shard's
row is exactly the previous row (or the fresh defaulted row on first
contact) with the size and file count incremented unconditionally and
`is_sealed` equal to the old flag OR-ed with "new cumulative size
exceeds the configured limit": the flag is monotone (never reset), it
turns true exactly at the write whose size update crosses the limit —
but the unconditional count increment shows sealing does not stop
subsequent writes from being assigned to the shard. -/
theorem C3_amended (cfg : StorageConfig) (shards : List (String × ShardStats))
    (sid stype : String) (fs : Int) (now_iso : String) :
    assocLookup (update_shard_stats cfg shards sid stype fs now_iso) sid =
      some (
        let before := (assocLookup shards sid).getD (shardFreshRow now_iso stype)
        { before with
            current_size_bytes := before.current_size_bytes + fs,
            file_count := before.file_count + 1,
            is_sealed := before.is_sealed ||
              decide (cfg.shard_size_limit_gb * 1073741824 <
                before.current_size_bytes + fs) }) := by
  unfold update_shard_stats
  rcases hlk : assocLookup shards sid with _ | s
  · have h1 : assocLookup (shards ++ [(sid, shardFreshRow now_iso stype)]) sid =
        some (shardFreshRow now_iso stype) := by
      rw [assocLookup_append_of_none _ _ _ hlk]
      simp [assocLookup]
    have h2 : assocLookup (assocUpdate (shards ++ [(sid, shardFreshRow now_iso stype)]) sid
        (fun s => { s with current_size_bytes := s.current_size_bytes + fs,
                           file_count := s.file_count + 1 })) sid =
        some { shardFreshRow now_iso stype with
                 current_size_bytes := (shardFreshRow now_iso stype).current_size_bytes + fs,
                 file_count := (shardFreshRow now_iso stype).file_count + 1 } := by
      rw [assocLookup_update_self, h1]
      rfl
    simp only [hlk, h2]
    by_cases hseal : cfg.shard_size_limit_gb * 1073741824 <
        (shardFreshRow now_iso stype).current_size_bytes + fs
    · rw [if_pos hseal, assocLookup_update_self, h2]
      simp only [shardFreshRow] at hseal
      simp [shardFreshRow, hseal]
      omega
    · rw [if_neg hseal, h2]
      simp only [shardFreshRow] at hseal
      simp [shardFreshRow, hseal]
      omega
  · have h2 : assocLookup (assocUpdate shards sid
        (fun s => { s with current_size_bytes := s.current_size_bytes + fs,
                           file_count := s.file_count + 1 })) sid =
        some { s with current_size_bytes := s.current_size_bytes + fs,
                      file_count := s.file_count + 1 } := by
      rw [assocLookup_update_self, hlk]
      rfl
    simp only [hlk, h2]
    by_cases hseal : cfg.shard_size_limit_gb * 1073741824 < s.current_size_bytes + fs
    · rw [if_pos hseal, assocLookup_update_self, h2]
      simp [hseal]
    · rw [if_neg hseal, h2]
      simp [hseal]

/-! ## Claim C9 — point lookup semantics -/

/-- C9: for any catalog state, `retrieve_qr_file` on a present id
returns the stored row, bumps exactly that row's access count by one and
stamps its last-accessed time (all other rows, the filesystem and the
shard table unchanged), while on an absent id it returns `None` and
leaves the whole state untouched. -/
theorem C9_retrieve (st : StorageState) (idA idB : String) (r : MetaRecord)
    (now : PyDatetime)
    (hA : assocLookup st.qr_metadata idA = some r)
    (hB : assocLookup st.qr_metadata idB = none) :
    (retrieve_qr_file st idA now).1 = some r ∧
    assocLookup (retrieve_qr_file st idA now).2.qr_metadata idA =
      some { r with access_count := r.access_count + 1, last_accessed := some now.iso } ∧
    (∀ j, j ≠ idA →
      assocLookup (retrieve_qr_file st idA now).2.qr_metadata j =
        assocLookup st.qr_metadata j) ∧
    (retrieve_qr_file st idA now).2.fs = st.fs ∧
    (retrieve_qr_file st idA now).2.storage_shards = st.storage_shards ∧
    retrieve_qr_file st idB now = (none, st) := by
  unfold retrieve_qr_file
  simp only [hA, hB]
  refine ⟨?_, ?_, ?_, ?_, ?_, ?_⟩ <;>
    first
      | trivial
      | (rw [assocLookup_update_self, hA]; rfl)
      | (intro j hj; exact assocLookup_update_ne _ _ _ _ hj)

def c9rec : MetaRecord :=
  { qr_id := "q1", citizen_id := "GOV00000001", document_type := "ID_CARD",
    created_at := "2024-01-01T00:00:00",
    file_path := "storage/hot/2024/01/01/hot_20240101_00/q1.png",
    file_size := 3, storage_type := "hot", shard_id := "hot_20240101_00",
    access_count := 0, last_accessed := none, checksum := "abc",
    backup_locations := [] }

def c9st : StorageState := ⟨[], [("q1", c9rec)], []⟩

/-- C9 witness: a one-row catalog, looked up at the present id "q1" and
the absent id "q2". -/
theorem C9_retrieve_witness :
    (assocLookup c9st.qr_metadata "q1" = some c9rec ∧
     assocLookup c9st.qr_metadata "q2" = none) ∧
    ((retrieve_qr_file c9st "q1" c3t).1 = some c9rec ∧
     assocLookup (retrieve_qr_file c9st "q1" c3t).2.qr_metadata "q1" =
       some { c9rec with access_count := c9rec.access_count + 1,
                         last_accessed := some c3t.iso } ∧
     (∀ j, j ≠ "q1" →
       assocLookup (retrieve_qr_file c9st "q1" c3t).2.qr_metadata j =
         assocLookup c9st.qr_metadata j) ∧
     (retrieve_qr_file c9st "q1" c3t).2.fs = c9st.fs ∧
     (retrieve_qr_file c9st "q1" c3t).2.storage_shards = c9st.storage_shards ∧
     retrieve_qr_file c9st "q2" c3t = (none, c9st)) :=
  ⟨⟨by decide, by decide⟩,
    C9_retrieve c9st "q1" "q2" c9rec c3t (by decide) (by decide)⟩

/-! ## Claim C4 — hash determinism across time -/

def c4order : Order := ⟨"ord-1", "cert-1", "CO", "est-1", 10, "pending", "unpaid"⟩

def c4exp : PyDatetime :=
  ⟨1767139200, "20251231", "2025/12", "31", 0, "2025-12-31T00:00:00"⟩

def c4cert : Certification := ⟨"C1", "CO", "Prod", "cat", c4exp, "off", "active"⟩

def c4day1 : PyDatetime :=
  ⟨1704067200, "20240101", "2024/01", "01", 0, "2024-01-01T00:00:00"⟩

def c4day2 : PyDatetime :=
  ⟨1704153600, "20240102", "2024/01", "02", 0, "2024-01-02T00:00:00"⟩

set_option maxRecDepth 100000 in
/-- C4 counterexample: encoding the same order, certification and
sequence number on two different days produces two different
`securityHash` values, because the artifact id embeds the encoding-time
date `%Y%m%d` and the id is part of the hashed canonical payload: the
hash is not a function of the business fields and sequence alone. -/
theorem C4_counterexample :
    (generate_secure_qr_data c4order c4cert 1 c4day1).security_hash ≠
      (generate_secure_qr_data c4order c4cert 1 c4day2).security_hash := by
  decide

/-- C4 amended: two encodings with the same business fields (order id and
company, certification id, product name up to the 20-character
truncation, expiry date rendering) and the same sequence number,
performed on the same calendar day, produce identical results — id,
payload and securityHash; all other attributes of the order and the
certification, and the time of day, are irrelevant.  Across days the
embedded date changes the id and with it the hash. -/
theorem C4_amended (o1 o2 : Order) (c1 c2 : Certification) (seq : Nat)
    (now1 now2 : PyDatetime)
    (hoid : o1.id = o2.id) (hcomp : o1.company_id = o2.company_id)
    (hcert : c1.id = c2.id)
    (hprod : pyStrTake 20 c1.product_name = pyStrTake 20 c2.product_name)
    (hexp : c1.expiry_date.yyyymmdd = c2.expiry_date.yyyymmdd)
    (hday : now1.yyyymmdd = now2.yyyymmdd) :
    generate_secure_qr_data o1 c1 seq now1 = generate_secure_qr_data o2 c2 seq now2 := by
  unfold generate_secure_qr_data
  rw [hoid, hcomp, hcert, hprod, hexp, hday]

def c4order2 : Order := ⟨"ord-1", "cert-9", "CO", "est-2", 99, "paid", "paid"⟩

def c4exp2 : PyDatetime :=
  ⟨1767182400, "20251231", "2025/12", "31", 12, "2025-12-31T12:00:00"⟩

def c4cert1 : Certification :=
  ⟨"C1", "CO", "AAAAAAAAAAAAAAAAAAAAxyz", "cat", c4exp, "off", "active"⟩

def c4cert2 : Certification :=
  ⟨"C1", "CO9", "AAAAAAAAAAAAAAAAAAAAqrs", "catB", c4exp2, "off2", "revoked"⟩

def c4day1b : PyDatetime :=
  ⟨1704110400, "20240101", "2024/01", "01", 12, "2024-01-01T12:00:00"⟩

/-- C4 witness: two orders and certifications that agree only on the
hashed fields (ids, company, product name up to 20 characters, expiry
rendering) encoded at two different times of the same day. -/
theorem C4_amended_witness :
    (c4order.id = c4order2.id ∧ c4order.company_id = c4order2.company_id ∧
     c4cert1.id = c4cert2.id ∧
     pyStrTake 20 c4cert1.product_name = pyStrTake 20 c4cert2.product_name ∧
     c4cert1.expiry_date.yyyymmdd = c4cert2.expiry_date.yyyymmdd ∧
     c4day1.yyyymmdd = c4day1b.yyyymmdd) ∧
    generate_secure_qr_data c4order c4cert1 7 c4day1 =
      generate_secure_qr_data c4order2 c4cert2 7 c4day1b :=
  ⟨⟨by decide, by decide, by decide, by decide, by decide, by decide⟩,
    C4_amended c4order c4order2 c4cert1 c4cert2 7 c4day1 c4day1b
      (by decide) (by decide) (by decide) (by decide) (by decide) (by decide)⟩

/-! ## Claim C5 — per-field tamper sensitivity -/

def c5fields : QRFields :=
  ⟨"GOV00000001", "PASSPORT", "2025-01-01", "2024-06-01T00:00:00"⟩

set_option maxRecDepth 100000 in
/-- C5 counterexample: two payloads that differ only in the `id` field
have different rendered payloads but identical security hashes —
`_generate_security_hash` never reads `self.id`, so tampering with the
id field is not detectable through the hash. -/
theorem C5_counterexample :
    (mkQRCodeData "id-aaa" c5fields).security_hash =
      (mkQRCodeData "id-bbb" c5fields).security_hash ∧
    (mkQRCodeData "id-aaa" c5fields).id ≠ (mkQRCodeData "id-bbb" c5fields).id ∧
    to_qr_data (mkQRCodeData "id-aaa" c5fields) ≠
      to_qr_data (mkQRCodeData "id-bbb" c5fields) := by
  refine ⟨rfl, by decide, by decide⟩

/-- C5 amended: the string fed to the hash is sensitive to every single-
field change of each of the four fields it covers — citizen id, document
type, expiry date and creation timestamp (changing exactly one of them
always changes the hash input, hence the hash up to collisions) — but
the id is not covered: the security hash is entirely independent of it. -/
theorem C5_amended (i : Fin 4) (f : QRFields) (x : String) (id1 id2 : String)
    (hx : x ≠ qrFieldGet i f) :
    qrSecurityHashInput (qrFieldSet i f x) ≠ qrSecurityHashInput f ∧
    (mkQRCodeData id1 f).security_hash = (mkQRCodeData id2 f).security_hash := by
  refine ⟨?_, rfl⟩
  intro h
  apply hx
  have hd := congrArg String.data h
  fin_cases i
  · simp only [qrFieldSet, qrFieldGet, qrSecurityHashInput, String.data_append,
      ← List.append_assoc] at hd
    apply String.ext
    exact List.append_cancel_right (List.append_cancel_right (List.append_cancel_right
      (List.append_cancel_right (List.append_cancel_right (List.append_cancel_right hd)))))
  · simp only [qrFieldSet, qrFieldGet, qrSecurityHashInput, String.data_append,
      ← List.append_assoc] at hd
    apply String.ext
    exact List.append_cancel_left (List.append_cancel_right (List.append_cancel_right
      (List.append_cancel_right (List.append_cancel_right hd))))
  · simp only [qrFieldSet, qrFieldGet, qrSecurityHashInput, String.data_append,
      ← List.append_assoc] at hd
    apply String.ext
    exact List.append_cancel_left (List.append_cancel_right (List.append_cancel_right hd))
  · simp only [qrFieldSet, qrFieldGet, qrSecurityHashInput, String.data_append,
      ← List.append_assoc] at hd
    apply String.ext
    exact List.append_cancel_left hd

/-- C5 witness: changing the citizen id field changes the hash input,
while two different ids hash identically. -/
theorem C5_amended_witness :
    ("GOV99999999" ≠ qrFieldGet 0 c5fields) ∧
    (qrSecurityHashInput (qrFieldSet 0 c5fields "GOV99999999") ≠
       qrSecurityHashInput c5fields ∧
     (mkQRCodeData "id-aaa" c5fields).security_hash =
       (mkQRCodeData "id-bbb" c5fields).security_hash) :=
  ⟨by decide, C5_amended 0 c5fields "GOV99999999" "id-aaa" "id-bbb" (by decide)⟩

/-! ## Claim C6 — id format and collision freedom -/

/-- C6: the artifact id produced for a caller-supplied sequence is
deterministically `gov-cg-<YYYYMMDD>-<8-digit zero-padded sequence>`:
the padded field has exactly 8 characters (for sequences below 10^8),
all decimal digits, and parses back to the sequence; consequently two
requests of the same run (same current date) with distinct sequences get
distinct ids. -/
theorem C6_id_format_unique (o : Order) (c : Certification) (now : PyDatetime)
    (s1 s2 : Nat) (h8 : s1 < 100000000) (hne : s1 ≠ s2) :
    (generate_secure_qr_data o c s1 now).qr_id =
      "gov-cg-" ++ now.yyyymmdd ++ "-" ++ pyFmt08 s1 ∧
    (pyFmt08 s1).length = 8 ∧
    (∀ ch ∈ (pyFmt08 s1).data, ch.isDigit = true) ∧
    decimalCharsVal (pyFmt08 s1).data = s1 ∧
    (generate_secure_qr_data o c s1 now).qr_id ≠
      (generate_secure_qr_data o c s2 now).qr_id := by
  refine ⟨rfl, pyFmt08_length h8, pyFmt08_chars_digits s1, pyFmt08_val s1, ?_⟩
  intro h
  exact hne (qr_gov_id_inj now.yyyymmdd h)

/-- C6 witness: sequences 1 and 2 on the same day. -/
theorem C6_id_format_unique_witness :
    (1 < 100000000 ∧ 1 ≠ 2) ∧
    ((generate_secure_qr_data c4order c4cert 1 c4day1).qr_id =
       "gov-cg-" ++ c4day1.yyyymmdd ++ "-" ++ pyFmt08 1 ∧
     (pyFmt08 1).length = 8 ∧
     (∀ ch ∈ (pyFmt08 1).data, ch.isDigit = true) ∧
     decimalCharsVal (pyFmt08 1).data = 1 ∧
     (generate_secure_qr_data c4order c4cert 1 c4day1).qr_id ≠
       (generate_secure_qr_data c4order c4cert 2 c4day1).qr_id) :=
  ⟨⟨by decide, by decide⟩,
    C6_id_format_unique c4order c4cert c4day1 1 2 (by decide) (by decide)⟩

/-! ## Claim C7 — store / retrieve round trip -/

/-- C7: under any config whose shard arithmetic does not divide by zero,
storing an artifact and then retrieving it by the same id returns a
record (not notFound) whose persisted checksum equals a fresh MD5
computed over the bytes found at the record's file path in the
post-store filesystem. -/
theorem C7_roundtrip (cfg : StorageConfig) (opt : List Nat → List Nat)
    (st : StorageState) (qid cid dt : String) (src : List Nat)
    (created now now2 : PyDatetime)
    (h1 : cfg.shards_per_day ≠ 0) (h2 : cfg.shards_per_day ≤ 24) :
    ∃ rec : MetaRecord,
      (retrieve_qr_file (storeResultD cfg opt st qid cid dt src created now).2 qid now2).1 =
        some rec ∧
      assocLookup (storeResultD cfg opt st qid cid dt src created now).2.fs rec.file_path =
        some (opt src) ∧
      rec.checksum = md5Hex (opt src) := by
  obtain ⟨b, hb⟩ : ∃ b, shardBucketIndex cfg.shards_per_day created.hour = some b :=
    Option.isSome_iff_exists.mp ((shardBucketIndex_isSome_iff _ created.hour).mpr ⟨h1, h2⟩)
  have hsid : generate_shard_id cfg.shards_per_day created
      (determine_storage_tier cfg created now) =
      some ((determine_storage_tier cfg created now) ++ "_" ++ created.yyyymmdd ++ "_" ++
        pyFmt02Int b) := by
    unfold generate_shard_id
    rw [hb]
    rfl
  unfold storeResultD store_qr_file
  simp only [hsid, Option.getD_some]
  unfold retrieve_qr_file
  simp only [assocLookup_insertOrReplace_self]
  exact ⟨_, rfl, by simp only [assocLookup_insertOrReplace_self], rfl⟩

/-- C7 witness: one artifact stored under the default config into an
empty state and read back. -/
theorem C7_roundtrip_witness :
    (defaultStorageConfig.shards_per_day ≠ 0 ∧
     defaultStorageConfig.shards_per_day ≤ 24) ∧
    (∃ rec : MetaRecord,
      (retrieve_qr_file
        (storeResultD defaultStorageConfig (fun b => b) ⟨[], [], []⟩ "q1" "c1" "ID_CARD"
          [1, 2, 3] c3t c3t).2 "q1" c4day2).1 = some rec ∧
      assocLookup
        (storeResultD defaultStorageConfig (fun b => b) ⟨[], [], []⟩ "q1" "c1" "ID_CARD"
          [1, 2, 3] c3t c3t).2.fs rec.file_path = some ((fun b => b) [1, 2, 3]) ∧
      rec.checksum = md5Hex ((fun b => b) [1, 2, 3])) :=
  ⟨⟨by decide, by decide⟩,
    C7_roundtrip defaultStorageConfig (fun b => b) ⟨[], [], []⟩ "q1" "c1" "ID_CARD"
      [1, 2, 3] c3t c3t c4day2 (by decide) (by decide)⟩

/-! ## Claim C8 — backup scheduling -/

def c8state : StorageState :=
  (storeResultD defaultStorageConfig (fun b => b) ⟨[], [], []⟩ "q1" "c1" "ID_CARD"
    [1] c3t c3t).2

/-- C8 counterexample: a hot-tier write under the default config (two
backup datacenters) persists a catalog row whose `backup_locations` is
the empty list — `_save_metadata` runs before `_schedule_backup`, which
only mutates the in-memory dict — refuting "the ArtifactRecord persisted
in the catalog carries one pending backup location per configured backup
datacenter". -/
theorem C8_counterexample :
    determine_storage_tier defaultStorageConfig c3t c3t = "hot" ∧
    defaultStorageConfig.backup_datacenters.length = 2 ∧
    ((assocLookup c8state.qr_metadata "q1").map
      (fun m => m.backup_locations) = some []) := by
  refine ⟨by decide, by decide, by decide⟩

/-- C8 amended: for a hot- or warm-tier write the Backup Scheduler is
invoked before `store_qr_file` returns and the returned storage-info
record carries one pending backup location (`"<dc>:<path>"`) per
configured backup datacenter, while for a cold-tier write the returned
record's backup locations are empty; but the record persisted in the
catalog has empty backup locations in every case, because the metadata
row is saved before the scheduler mutates the dict. -/
theorem C8_amended (cfg : StorageConfig) (opt : List Nat → List Nat)
    (stA stB : StorageState) (qidA cidA dtA qidB cidB dtB : String)
    (srcA srcB : List Nat) (createdA nowA createdB nowB : PyDatetime)
    (h1 : cfg.shards_per_day ≠ 0) (h2 : cfg.shards_per_day ≤ 24)
    (htierA : determine_storage_tier cfg createdA nowA = "hot" ∨
              determine_storage_tier cfg createdA nowA = "warm")
    (htierB : determine_storage_tier cfg createdB nowB = "cold") :
    ((storeResultD cfg opt stA qidA cidA dtA srcA createdA nowA).1.backup_locations =
      schedule_backup_locations cfg
        (storeResultD cfg opt stA qidA cidA dtA srcA createdA nowA).1.file_path) ∧
    ((assocLookup (storeResultD cfg opt stA qidA cidA dtA srcA createdA nowA).2.qr_metadata
        qidA).map (fun m => m.backup_locations) = some []) ∧
    ((storeResultD cfg opt stB qidB cidB dtB srcB createdB nowB).1.backup_locations = []) ∧
    ((assocLookup (storeResultD cfg opt stB qidB cidB dtB srcB createdB nowB).2.qr_metadata
        qidB).map (fun m => m.backup_locations) = some []) := by
  obtain ⟨bA, hbA⟩ : ∃ b, shardBucketIndex cfg.shards_per_day createdA.hour = some b :=
    Option.isSome_iff_exists.mp ((shardBucketIndex_isSome_iff _ createdA.hour).mpr ⟨h1, h2⟩)
  obtain ⟨bB, hbB⟩ : ∃ b, shardBucketIndex cfg.shards_per_day createdB.hour = some b :=
    Option.isSome_iff_exists.mp ((shardBucketIndex_isSome_iff _ createdB.hour).mpr ⟨h1, h2⟩)
  have hsidA : generate_shard_id cfg.shards_per_day createdA
      (determine_storage_tier cfg createdA nowA) =
      some ((determine_storage_tier cfg createdA nowA) ++ "_" ++ createdA.yyyymmdd ++ "_" ++
        pyFmt02Int bA) := by
    unfold generate_shard_id
    rw [hbA]
    rfl
  have hsidB : generate_shard_id cfg.shards_per_day createdB
      (determine_storage_tier cfg createdB nowB) =
      some ((determine_storage_tier cfg createdB nowB) ++ "_" ++ createdB.yyyymmdd ++ "_" ++
        pyFmt02Int bB) := by
    unfold generate_shard_id
    rw [hbB]
    rfl
  have hnotB : ¬(determine_storage_tier cfg createdB nowB = "hot" ∨
      determine_storage_tier cfg createdB nowB = "warm") := by
    rw [htierB]
    decide
  unfold storeResultD store_qr_file
  simp only [hsidA, hsidB, Option.getD_some, if_pos htierA, if_neg hnotB]
  refine ⟨?_, ?_, ?_, ?_⟩ <;>
    first
      | trivial
      | simp only [assocLookup_insertOrReplace_self, Option.map_some']

def c8createdB : PyDatetime :=
  ⟨0, "20221128", "2022/11", "28", 0, "2022-11-28T00:00:00"⟩

def c8nowB : PyDatetime :=
  ⟨34560000, "20240101", "2024/01", "01", 0, "2024-01-01T00:00:00"⟩

/-- C8 witness: a fresh (hot) write and a 400-day-old (cold) write under
the default config. -/
theorem C8_amended_witness :
    (defaultStorageConfig.shards_per_day ≠ 0 ∧
     defaultStorageConfig.shards_per_day ≤ 24 ∧
     (determine_storage_tier defaultStorageConfig c3t c3t = "hot" ∨
      determine_storage_tier defaultStorageConfig c3t c3t = "warm") ∧
     determine_storage_tier defaultStorageConfig c8createdB c8nowB = "cold") ∧
    (((storeResultD defaultStorageConfig (fun b => b) ⟨[], [], []⟩ "q1" "c1" "ID_CARD"
        [1] c3t c3t).1.backup_locations =
      schedule_backup_locations defaultStorageConfig
        (storeResultD defaultStorageConfig (fun b => b) ⟨[], [], []⟩ "q1" "c1" "ID_CARD"
          [1] c3t c3t).1.file_path) ∧
    ((assocLookup (storeResultD defaultStorageConfig (fun b => b) ⟨[], [], []⟩ "q1" "c1"
        "ID_CARD" [1] c3t c3t).2.qr_metadata "q1").map
          (fun m => m.backup_locations) = some []) ∧
    ((storeResultD defaultStorageConfig (fun b => b) ⟨[], [], []⟩ "q2" "c2" "ID_CARD"
        [1] c8createdB c8nowB).1.backup_locations = []) ∧
    ((assocLookup (storeResultD defaultStorageConfig (fun b => b) ⟨[], [], []⟩ "q2" "c2"
        "ID_CARD" [1] c8createdB c8nowB).2.qr_metadata "q2").map
          (fun m => m.backup_locations) = some [])) :=
  ⟨⟨by decide, by decide, Or.inl (by decide), by decide⟩,
    C8_amended defaultStorageConfig (fun b => b) ⟨[], [], []⟩ ⟨[], [], []⟩ "q1" "c1"
      "ID_CARD" "q2" "c2" "ID_CARD" [1] [1] c3t c3t c8createdB c8nowB
      (by decide) (by decide) (Or.inl (by decide)) (by decide)⟩
